import Mathlib

/-!
Shallow embedding of `src/world_inspector/plugin.rs` from the
`bevy-inspector-egui` repository: the `WorldInspectorPlugin` build wiring and
the per-frame exclusive system `world_inspector_ui`.

External collaborators (the bevy ECS store, the egui toolkit) are embedded at
the interface the source consumes.  Repository code that is not in `src/`
(`WorldUIContext::world_ui`, `WorldUIContext::component_kind_ui`,
`crate::plugin::default_settings`) is modelled from the spec; those
definitions carry a `Modelled from the spec:` doc comment.
-/

namespace WorldInspector

/-- Entity identifier of the host ECS store (`bevy::prelude::Entity`). -/
abbrev EntityId := Nat

/-- Runtime type handle of a component (`ComponentId` / `TypeHandle`). -/
abbrev CompId := Nat

/-- Identifier of a target window (`bevy::window::WindowId`). -/
abbrev WindowId := Nat

/-- The inspector configuration resource `WorldInspectorParams`: enabled flag,
display mode (`panel`: true = docked side panel, false = floating window),
target window and currently selected entity. -/
structure WorldInspectorParams where
  enabled : Bool
  panel : Bool
  window : WindowId
  entity : Option EntityId
  deriving Repr, DecidableEq

/-- Modelled from the spec: the default configuration — `enabled: bool`
(default true), `window: WindowTarget` (default = primary, here 0),
`entity: Option<EntityId>` (default none); the spec fixes no default for
`panel`, the floating window (false) is used. -/
def WorldInspectorParams.default : WorldInspectorParams :=
  { enabled := true, panel := false, window := 0, entity := none }

/-- An archetype of the host store, exposing its two component storage groups
(`Archetype::table_components`, `Archetype::sparse_set_components`). -/
structure Archetype where
  tableComponents : List CompId
  sparseSetComponents : List CompId
  deriving Repr, DecidableEq

/-- All component types owned by an entity of this archetype: the host stores
each component type in exactly one of the two groups. -/
def Archetype.components (a : Archetype) : List CompId :=
  a.tableComponents ++ a.sparseSetComponents

/-- Host-store well-formedness: a component type lives in the table group or
in the sparse-set group, never in both. -/
def Archetype.wf (a : Archetype) : Prop :=
  ∀ c, ¬(c ∈ a.tableComponents ∧ c ∈ a.sparseSetComponents)

/-- An `EntityRef` of the host store: `location()` and `archetype()`. -/
structure EntityRef where
  location : Nat
  archetype : Archetype
  deriving Repr, DecidableEq

/-- The `EguiContext` resource, embedded at the interface the source consumes:
the set of windows for which a drawing context is available. -/
structure EguiContext where
  windows : List WindowId
  deriving Repr, DecidableEq

/-- `EguiContext::try_ctx_for_window`: a drawing context for the given window,
if one is available. -/
def EguiContext.try_ctx_for_window (c : EguiContext) (w : WindowId) :
    Option Unit :=
  if w ∈ c.windows then some () else none

/-- The `InspectableRegistry` resource: registered type handles (the
`InspectorFn` bodies themselves are irrelevant to the claims below). -/
structure InspectableRegistry where
  handles : List CompId
  deriving Repr, DecidableEq

/-- The default registry is empty. -/
def InspectableRegistry.default : InspectableRegistry := ⟨[]⟩

/-- Component values of the world, keyed by (entity, component type). -/
abbrev CompData := List ((EntityId × CompId) × Nat)

/-- The host `World`, embedded at the interface `world_inspector_ui` consumes:
the optional resources it fetches, the live entities and the component data. -/
structure World where
  params : Option WorldInspectorParams
  egui : Option EguiContext
  registry : Option InspectableRegistry
  entities : List (EntityId × EntityRef)
  data : CompData
  deriving Repr, DecidableEq

/-- `World::get_entity`: the `EntityRef` of a live entity, `none` if the
entity does not exist (e.g. was destroyed). -/
def World.get_entity (w : World) (e : EntityId) : Option EntityRef :=
  w.entities.lookup e

/-- Widgets drawn inside a surface.  Pure styling calls of the source
(`crate::plugin::default_settings`, spacing adjustments) have no observable
output and are not recorded. -/
inductive Widget where
  | heading (text : String)
  | separator
  | label (text : String)
  | hierarchy (entities : List EntityId)
  | componentSection (header : String) (comps : List CompId)
  deriving Repr, DecidableEq

/-- A top-level UI surface: a left-docked side panel (`egui::SidePanel::left`)
or a floating window (`egui::Window`, with its closable and scrollable
capabilities). -/
inductive Surface where
  | leftPanel (title : String) (widgets : List Widget)
  | window (title : String) (closable scrollable : Bool) (widgets : List Widget)
  deriving Repr, DecidableEq

/-- One observable step of a tick: the read of the configuration resource at
the start (line 114), a drawn surface, or the write of the configuration
resource at the end (lines 194–196). -/
inductive TickEvent where
  | readParams
  | draw (s : Surface)
  | writeParams
  deriving Repr, DecidableEq

/-- The user interactions of one frame, consumed by the immediate-mode UI:
an optional click in the hierarchy (selecting an entity or clearing the
selection), whether the close button of the floating window was clicked, and
the widget edits (component type, new value) performed this frame. -/
structure FrameInput where
  click : Option (Option EntityId)
  closeClicked : Bool
  edits : List (CompId × Nat)
  deriving Repr, DecidableEq

/-- The entities listed by the hierarchy: the live entities matching the
query filter `F`, in the host store's enumeration order. -/
def listEntities (w : World) (filt : EntityId → Bool) : List EntityId :=
  (w.entities.map Prod.fst).filter filt

/-- Modelled from the spec: `WorldUIContext::world_ui` (not under `src/`) —
draws the hierarchy surface (`list_entities` with the filter, each entity
clickable to select) and updates the selection on a user click; the selection
is not auto-cleared otherwise. -/
def world_ui (w : World) (filt : EntityId → Bool) (sel : Option EntityId)
    (click : Option (Option EntityId)) : Widget × Option EntityId :=
  (Widget.hierarchy (listEntities w filt),
   match click with
   | some s => s
   | none => sel)

/-- Write a single component value of an entity in place. -/
def setComp (data : CompData) (e : EntityId) (c : CompId) (v : Nat) :
    CompData :=
  data.map (fun kv => if kv.fst = (e, c) then ((e, c), v) else kv)

/-- Apply the frame's widget edits that fall inside the given component list
to the entity's component data, in order. -/
def applyEdits (data : CompData) (e : EntityId) (comps : List CompId)
    (edits : List (CompId × Nat)) : CompData :=
  edits.foldl
    (fun d cv => if cv.fst ∈ comps then setComp d e cv.fst cv.snd else d) data

/-- Modelled from the spec: `WorldUIContext::component_kind_ui` (not under
`src/`) — renders one storage-group section listing the given component types
under the given header, writes widget edits back into the live store, and
returns whether any widget edit occurred inside the section (the logical OR
of all nested field changes). -/
def component_kind_ui (data : CompData) (comps : List CompId)
    (header : String) (e : EntityId) (edits : List (CompId × Nat)) :
    CompData × Widget × Bool :=
  (applyEdits data e comps edits,
   Widget.componentSection header comps,
   edits.any (fun cv => cv.fst ∈ comps))

/-- The result of one tick of `world_inspector_ui`: the world after the tick,
the trace of observable steps, and the changed signal surfaced by the
inspector panel closure (its return value, lines 159/188) — `none` when that
closure did not run. -/
structure TickResult where
  world : World
  trace : List TickEvent
  changed : Option Bool
  deriving Repr, DecidableEq

/-- The surfaces drawn during a tick, in order. -/
def TickResult.surfaces (r : TickResult) : List Surface :=
  r.trace.filterMap (fun ev => match ev with
    | TickEvent.draw s => some s
    | _ => none)

/-- Lines 125–150: draw the hierarchy surface — in panel mode a left side
panel "World" with a "Hierarchy" heading and a separator, otherwise a
floating closable scrollable window "World" — run `world_ui` inside it, and
record the selection it produces and the resulting `is_open` flag (set to
false only when the close button of the floating window was clicked). -/
def drawHierarchySurface (w : World) (filt : EntityId → Bool)
    (params : WorldInspectorParams) (input : FrameInput) :
    (Surface × Bool) × Option EntityId :=
  let hs := world_ui w filt params.entity input.click
  (if params.panel then
     (Surface.leftPanel "World"
        [Widget.heading "Hierarchy", Widget.separator, hs.fst], true)
   else
     (Surface.window "World" true true [hs.fst], !input.closeClicked),
   hs.snd)

/-- Lines 152–191: in panel mode, for a selected entity, draw the inspector
side panel — an "Entity does not exist" label with changed = false when the
entity was destroyed (155–161), otherwise the two storage-group sections
(169–188) with changed the OR of their results — returning the drawn surface
together with its changed value, and the component data after edits. -/
def drawInspectorPanel (w : World) (params : WorldInspectorParams)
    (entity : Option EntityId) (edits : List (CompId × Nat)) :
    Option (Surface × Bool) × CompData :=
  if params.panel then
    match entity with
    | some e =>
      match w.get_entity e with
      | none =>
        (some (Surface.leftPanel "Inspector"
                 [Widget.label "Entity does not exist"], false),
         w.data)
      | some entityRef =>
        let a := entityRef.archetype
        let t := component_kind_ui w.data a.tableComponents
          "Components" e edits
        let s := component_kind_ui t.fst a.sparseSetComponents
          "Components (Sparse)" e edits
        (some (Surface.leftPanel "Inspector" [t.snd.fst, s.snd.fst],
               t.snd.snd || s.snd.snd),
         s.fst)
    | none => (none, w.data)
  else (none, w.data)

/-- Lines 125–196, the main branch of the tick: draw the hierarchy surface,
draw the inspector panel, then write the configuration back (enabled :=
is_open, entity := the selection produced by the hierarchy). -/
def tickMain (filt : EntityId → Bool) (w : World) (input : FrameInput)
    (params : WorldInspectorParams) : TickResult :=
  let hier := drawHierarchySurface w filt params input
  let entity := hier.snd
  let is_open := hier.fst.snd
  let inspector := drawInspectorPanel w params entity input.edits
  let drawn :=
    match inspector.fst with
    | some sb => [TickEvent.draw hier.fst.fst, TickEvent.draw sb.fst]
    | none => [TickEvent.draw hier.fst.fst]
  ⟨{ w with
       params := some { params with enabled := is_open, entity := entity },
       data := inspector.snd },
   TickEvent.readParams :: (drawn ++ [TickEvent.writeParams]),
   inspector.fst.map Prod.snd⟩

/-- The exclusive system `world_inspector_ui::<F>` (lines 107–197), one tick.
`filt` embeds the query filter `F`.  A `.error` value models a panic
(`unwrap` on line 114, `expect` on line 119).  The tick reads the
configuration (114), early-returns when disabled (115–117) or when no drawing
context exists for the target window (120–123), and otherwise runs the main
branch `tickMain` (125–196). -/
def world_inspector_ui (filt : EntityId → Bool) (w : World)
    (input : FrameInput) : Except String TickResult :=
  match w.params with
  | none => Except.error "called Option::unwrap on a None value"
  | some params =>
    if !params.enabled then
      Except.ok ⟨w, [TickEvent.readParams], none⟩
    else
      match w.egui with
      | none => Except.error "EguiContext"
      | some egui =>
        match egui.try_ctx_for_window params.window with
        | none => Except.ok ⟨w, [TickEvent.readParams], none⟩
        | some _ => Except.ok (tickMain filt w input params)

/-- The app builder, embedded at the interface `build` consumes: the world
(holding the resources), the installed plugins and the registered systems
(name and exclusive flag). -/
structure App where
  world : World
  plugins : List String
  systems : List (String × Bool)
  deriving Repr, DecidableEq

/-- `WorldInspectorPlugin::build` (lines 94–105): adds `EguiPlugin` only when
no `EguiContext` resource is present (95–97), inserts default
`WorldInspectorParams` and `InspectableRegistry` only when absent (99–101),
and registers `world_inspector_ui` as an exclusive system (103). -/
def WorldInspectorPlugin.build (app : App) : App :=
  let app1 :=
    if app.world.egui.isSome then app
    else { app with plugins := app.plugins ++ ["EguiPlugin"] }
  let w := app1.world
  let w1 :=
    { w with
      params := some (w.params.getD WorldInspectorParams.default),
      registry := some (w.registry.getD InspectableRegistry.default) }
  { app1 with
    world := w1,
    systems := app1.systems ++ [("world_inspector_ui", true)] }

/-! Concrete instances used by the witness theorems. -/

/-- A query filter accepting every entity (the default `F = ()`). -/
def filtTrue : EntityId → Bool := fun _ => true

/-- An archetype with two table components and one sparse-set component. -/
def arch1 : Archetype := ⟨[10, 11], [20]⟩

/-- An entity reference for `arch1`. -/
def ref1 : EntityRef := ⟨0, arch1⟩

/-- An egui context with a drawing context for the primary window 0. -/
def eg0 : EguiContext := ⟨[0]⟩

/-- An egui context with no drawing context available. -/
def egNone : EguiContext := ⟨[]⟩

/-- Enabled panel-mode configuration with entity 5 selected. -/
def pOn : WorldInspectorParams := ⟨true, true, 0, some 5⟩

/-- Disabled configuration. -/
def pOff : WorldInspectorParams := ⟨false, false, 0, none⟩

/-- Enabled floating-window configuration. -/
def pWin : WorldInspectorParams := ⟨true, false, 0, none⟩

/-- A world where selected entity 5 is alive with archetype `arch1`. -/
def wLive : World := ⟨some pOn, some eg0, some ⟨[]⟩, [(5, ref1)], [((5, 10), 0)]⟩

/-- A world where selected entity 5 has been destroyed. -/
def wDead : World := ⟨some pOn, some eg0, some ⟨[]⟩, [], []⟩

/-- A world whose inspector is disabled. -/
def wOff : World := ⟨some pOff, some eg0, some ⟨[]⟩, [(5, ref1)], []⟩

/-- A world with no drawing context for the configured target window. -/
def wNoCtx : World := ⟨some pOn, some egNone, some ⟨[]⟩, [(5, ref1)], []⟩

/-- A world missing the `WorldInspectorParams` resource. -/
def wNoParams : World := ⟨none, none, none, [], []⟩

/-- A world in floating-window mode. -/
def wWin : World := ⟨some pWin, some eg0, some ⟨[]⟩, [(5, ref1)], []⟩

/-- A frame with no user interaction. -/
def input0 : FrameInput := ⟨none, false, []⟩

/-- A frame where the user clicks the close button of the floating window. -/
def inputClose : FrameInput := ⟨none, true, []⟩

/-- A frame where the user edits a widget of table component 10. -/
def inputEdit : FrameInput := ⟨none, false, [(10, 99)]⟩

/-! Helper lemmas shared by the claim proofs. -/

/-- When the configuration resource is present, the inspector is enabled and
a drawing context exists for the target window, the tick runs its main
branch. -/
theorem tick_eq_main (filt : EntityId → Bool) (w : World) (input : FrameInput)
    (p : WorldInspectorParams) (egui : EguiContext)
    (hp : w.params = some p) (hen : p.enabled = true)
    (heg : w.egui = some egui) (hctx : p.window ∈ egui.windows) :
    world_inspector_ui filt w input = Except.ok (tickMain filt w input p) := by
  simp [world_inspector_ui, hp, hen, heg, EguiContext.try_ctx_for_window, hctx]

/-- With no hierarchy click, the selection produced by the hierarchy surface
is the configured one. -/
theorem drawHierarchySurface_snd (w : World) (filt : EntityId → Bool)
    (p : WorldInspectorParams) (input : FrameInput)
    (hclick : input.click = none) :
    (drawHierarchySurface w filt p input).snd = p.entity := by
  simp [drawHierarchySurface, world_ui, hclick]

/-- In panel mode the hierarchy surface is the left side panel "World" and
`is_open` stays true. -/
theorem drawHierarchySurface_panel (w : World) (filt : EntityId → Bool)
    (p : WorldInspectorParams) (input : FrameInput)
    (hpanel : p.panel = true) :
    (drawHierarchySurface w filt p input).fst =
      (Surface.leftPanel "World"
        [Widget.heading "Hierarchy", Widget.separator,
         Widget.hierarchy (listEntities w filt)], true) := by
  simp [drawHierarchySurface, world_ui, hpanel]

/-- In floating-window mode the hierarchy surface is the closable scrollable
window "World" and `is_open` records the close click. -/
theorem drawHierarchySurface_window (w : World) (filt : EntityId → Bool)
    (p : WorldInspectorParams) (input : FrameInput)
    (hpanel : p.panel = false) :
    (drawHierarchySurface w filt p input).fst =
      (Surface.window "World" true true
        [Widget.hierarchy (listEntities w filt)], !input.closeClicked) := by
  simp [drawHierarchySurface, world_ui, hpanel]

/-- The inspector panel for a live selected entity: the two storage-group
sections, the OR of the two changed results, and the edited data. -/
theorem drawInspectorPanel_live (w : World) (p : WorldInspectorParams)
    (e : EntityId) (entityRef : EntityRef) (edits : List (CompId × Nat))
    (hpanel : p.panel = true) (href : w.get_entity e = some entityRef) :
    drawInspectorPanel w p (some e) edits =
      (some (Surface.leftPanel "Inspector"
               [Widget.componentSection "Components"
                  entityRef.archetype.tableComponents,
                Widget.componentSection "Components (Sparse)"
                  entityRef.archetype.sparseSetComponents],
             (edits.any fun cv => cv.fst ∈ entityRef.archetype.tableComponents) ||
               (edits.any fun cv =>
                 cv.fst ∈ entityRef.archetype.sparseSetComponents)),
       applyEdits (applyEdits w.data e entityRef.archetype.tableComponents edits)
         e entityRef.archetype.sparseSetComponents edits) := by
  simp [drawInspectorPanel, hpanel, href, component_kind_ui]

/-- The inspector panel draws nothing or a left side panel "Inspector",
never a window. -/
theorem drawInspectorPanel_shape (w : World) (p : WorldInspectorParams)
    (entity : Option EntityId) (edits : List (CompId × Nat)) :
    (drawInspectorPanel w p entity edits).fst = none ∨
    ∃ ws b, (drawInspectorPanel w p entity edits).fst =
      some (Surface.leftPanel "Inspector" ws, b) := by
  by_cases hpanel : p.panel
  · cases entity with
    | none => exact Or.inl (by simp [drawInspectorPanel, hpanel])
    | some e =>
      cases hge : w.get_entity e with
      | none =>
        refine Or.inr ⟨[Widget.label "Entity does not exist"], false, ?_⟩
        simp [drawInspectorPanel, hpanel, hge]
      | some entityRef =>
        refine Or.inr
          ⟨[Widget.componentSection "Components"
              entityRef.archetype.tableComponents,
            Widget.componentSection "Components (Sparse)"
              entityRef.archetype.sparseSetComponents],
           (edits.any fun cv =>
              cv.fst ∈ entityRef.archetype.tableComponents) ||
             (edits.any fun cv =>
               cv.fst ∈ entityRef.archetype.sparseSetComponents), ?_⟩
        rw [drawInspectorPanel_live w p e entityRef edits hpanel hge]
  · exact Or.inl (by simp [drawInspectorPanel, hpanel])

/-- The surfaces of a main-branch tick: the hierarchy surface followed by
the inspector surface when the latter was drawn. -/
theorem tickMain_surfaces (filt : EntityId → Bool) (w : World)
    (input : FrameInput) (p : WorldInspectorParams) :
    (tickMain filt w input p).surfaces =
      (drawHierarchySurface w filt p input).fst.fst ::
        (match (drawInspectorPanel w p (drawHierarchySurface w filt p input).snd
                  input.edits).fst with
         | some sb => [sb.fst]
         | none => []) := by
  cases hins : (drawInspectorPanel w p (drawHierarchySurface w filt p input).snd
      input.edits).fst with
  | none => simp [tickMain, TickResult.surfaces, hins]
  | some sb => simp [tickMain, TickResult.surfaces, hins]

/-! The claims. -/

/-- C9: when the enabled flag of the configuration is false, the tick returns
immediately: no surface is drawn, the changed signal is not produced, and the
world — configuration, entities, component data — is returned unchanged. -/
theorem C9_disabled_tick_is_noop (filt : EntityId → Bool) (w : World)
    (input : FrameInput) (p : WorldInspectorParams)
    (hp : w.params = some p) (hen : p.enabled = false) :
    world_inspector_ui filt w input =
      Except.ok ⟨w, [TickEvent.readParams], none⟩ := by
  simp [world_inspector_ui, hp, hen]

/-- Witness for C9 at the concrete disabled world `wOff`. -/
theorem C9_disabled_tick_is_noop_witness :
    world_inspector_ui filtTrue wOff input0 =
      Except.ok ⟨wOff, [TickEvent.readParams], none⟩ :=
  C9_disabled_tick_is_noop filtTrue wOff input0 pOff rfl rfl

/-- C3: when the UI toolkit has no drawing context for the configured target
window (`try_ctx_for_window` returns none), the tick is a no-op for the
frame: no surface is drawn, the world and the configuration are unchanged,
and no error is raised. -/
theorem C3_missing_ctx_tick_is_noop (filt : EntityId → Bool) (w : World)
    (input : FrameInput) (p : WorldInspectorParams) (egui : EguiContext)
    (hp : w.params = some p) (hen : p.enabled = true)
    (heg : w.egui = some egui)
    (hctx : egui.try_ctx_for_window p.window = none) :
    world_inspector_ui filt w input =
      Except.ok ⟨w, [TickEvent.readParams], none⟩ := by
  simp [world_inspector_ui, hp, hen, heg, hctx]

/-- Witness for C3 at the concrete world `wNoCtx`. -/
theorem C3_missing_ctx_tick_is_noop_witness :
    world_inspector_ui filtTrue wNoCtx input0 =
      Except.ok ⟨wNoCtx, [TickEvent.readParams], none⟩ :=
  C3_missing_ctx_tick_is_noop filtTrue wNoCtx input0 pOn egNone rfl rfl rfl rfl

/-- C5: `build` adds `EguiPlugin` exactly when no `EguiContext` resource is
present, keeps a pre-existing `WorldInspectorParams` resource and a
pre-existing `InspectableRegistry` unchanged while inserting the default for
an absent one, and registers `world_inspector_ui` as an exclusive system. -/
theorem C5_build_wiring (app : App) :
    ((WorldInspectorPlugin.build app).plugins =
      if app.world.egui.isSome then app.plugins
      else app.plugins ++ ["EguiPlugin"]) ∧
    (WorldInspectorPlugin.build app).world.params =
      some (app.world.params.getD WorldInspectorParams.default) ∧
    (WorldInspectorPlugin.build app).world.registry =
      some (app.world.registry.getD InspectableRegistry.default) ∧
    (WorldInspectorPlugin.build app).systems =
      app.systems ++ [("world_inspector_ui", true)] := by
  by_cases h : app.world.egui.isSome <;>
    simp [WorldInspectorPlugin.build, h]

/-- C7 counterexample: on a world missing the `WorldInspectorParams`
resource, the tick aborts with a hard failure (the `unwrap` on line 114
panics), so it is not true that the tick never aborts for every world
state. -/
theorem C7_counterexample :
    world_inspector_ui filtTrue wNoParams input0 =
      Except.error "called Option::unwrap on a None value" := rfl

/-- C7 amended: for every world state in which the `WorldInspectorParams`
and `EguiContext` resources are present (as the plugin's `build` ensures),
one inspector tick never aborts with a hard failure: every recoverable
condition is absorbed into a degraded UI state and the tick returns
normally. -/
theorem C7_no_panic (filt : EntityId → Bool) (w : World) (input : FrameInput)
    (hp : w.params.isSome = true) (he : w.egui.isSome = true) :
    ∃ r, world_inspector_ui filt w input = Except.ok r := by
  obtain ⟨p, hp'⟩ := Option.isSome_iff_exists.mp hp
  obtain ⟨eg, he'⟩ := Option.isSome_iff_exists.mp he
  cases hres : world_inspector_ui filt w input with
  | ok r => exact ⟨r, rfl⟩
  | error msg =>
    exfalso
    by_cases hen : p.enabled
    · cases hctx : eg.try_ctx_for_window p.window with
      | none => simp [world_inspector_ui, hp', he', hen, hctx] at hres
      | some u => simp [world_inspector_ui, hp', he', hen, hctx] at hres
    · simp [world_inspector_ui, hp', hen] at hres

/-- Witness for the amended C7 at the concrete live world `wLive`. -/
theorem C7_no_panic_witness :
    ∃ r, world_inspector_ui filtTrue wLive input0 = Except.ok r :=
  C7_no_panic filtTrue wLive input0 rfl rfl

/-- C1: when the selected entity was destroyed (`get_entity` returns none),
the tick draws the "Entity does not exist" label in the inspector panel,
surfaces changed = false, does not panic, and does not clear the selection:
the written-back configuration still holds the stale entity id. -/
theorem C1_stale_selection (filt : EntityId → Bool) (w : World)
    (input : FrameInput) (p : WorldInspectorParams) (egui : EguiContext)
    (e : EntityId)
    (hp : w.params = some p) (hen : p.enabled = true)
    (hpanel : p.panel = true) (heg : w.egui = some egui)
    (hctx : p.window ∈ egui.windows) (hsel : p.entity = some e)
    (hclick : input.click = none) (hdead : w.get_entity e = none) :
    world_inspector_ui filt w input =
      Except.ok
        ⟨{ w with params := some { p with enabled := true, entity := some e } },
         [TickEvent.readParams,
          TickEvent.draw (Surface.leftPanel "World"
            [Widget.heading "Hierarchy", Widget.separator,
             Widget.hierarchy (listEntities w filt)]),
          TickEvent.draw (Surface.leftPanel "Inspector"
            [Widget.label "Entity does not exist"]),
          TickEvent.writeParams],
         some false⟩ := by
  rw [tick_eq_main filt w input p egui hp hen heg hctx]
  simp [tickMain, drawHierarchySurface, drawInspectorPanel, world_ui,
        hpanel, hsel, hclick, hdead]

/-- Witness for C1 at the concrete world `wDead` whose selected entity 5 was
destroyed. -/
theorem C1_stale_selection_witness :
    world_inspector_ui filtTrue wDead input0 =
      Except.ok
        ⟨{ wDead with
             params := some { pOn with enabled := true, entity := some 5 } },
         [TickEvent.readParams,
          TickEvent.draw (Surface.leftPanel "World"
            [Widget.heading "Hierarchy", Widget.separator,
             Widget.hierarchy (listEntities wDead filtTrue)]),
          TickEvent.draw (Surface.leftPanel "Inspector"
            [Widget.label "Entity does not exist"]),
          TickEvent.writeParams],
         some false⟩ :=
  C1_stale_selection filtTrue wDead input0 pOn eg0 5 rfl rfl rfl rfl
    (by decide) rfl rfl rfl

/-- C2: for a selected entity that exists, the tick draws the inspector
panel with the archetype's table components under "Components" and its
sparse-set components under "Components (Sparse)"; given the host-store
invariant that the two storage groups are disjoint, every component type
owned by the entity appears in exactly one of the two sections. -/
theorem C2_component_partition (filt : EntityId → Bool) (w : World)
    (input : FrameInput) (p : WorldInspectorParams) (egui : EguiContext)
    (e : EntityId) (entityRef : EntityRef)
    (hp : w.params = some p) (hen : p.enabled = true)
    (hpanel : p.panel = true) (heg : w.egui = some egui)
    (hctx : p.window ∈ egui.windows) (hsel : p.entity = some e)
    (hclick : input.click = none) (href : w.get_entity e = some entityRef)
    (hwf : entityRef.archetype.wf) :
    ∃ r, world_inspector_ui filt w input = Except.ok r ∧
      Surface.leftPanel "Inspector"
          [Widget.componentSection "Components"
             entityRef.archetype.tableComponents,
           Widget.componentSection "Components (Sparse)"
             entityRef.archetype.sparseSetComponents] ∈ r.surfaces ∧
      ∀ c ∈ entityRef.archetype.components,
        (c ∈ entityRef.archetype.tableComponents ∧
           c ∉ entityRef.archetype.sparseSetComponents) ∨
        (c ∈ entityRef.archetype.sparseSetComponents ∧
           c ∉ entityRef.archetype.tableComponents) := by
  refine ⟨_, tick_eq_main filt w input p egui hp hen heg hctx, ?_, ?_⟩
  · rw [tickMain_surfaces, drawHierarchySurface_snd w filt p input hclick,
        hsel, drawInspectorPanel_live w p e entityRef input.edits hpanel href]
    simp
  · intro c hc
    rcases List.mem_append.mp (by simpa [Archetype.components] using hc)
      with h1 | h2
    · exact Or.inl ⟨h1, fun h2 => hwf c ⟨h1, h2⟩⟩
    · exact Or.inr ⟨h2, fun h1 => hwf c ⟨h1, h2⟩⟩

/-- Witness for C2 at the concrete world `wLive` with live entity 5 of
archetype `arch1`. -/
theorem C2_component_partition_witness :
    ∃ r, world_inspector_ui filtTrue wLive input0 = Except.ok r ∧
      Surface.leftPanel "Inspector"
          [Widget.componentSection "Components" ref1.archetype.tableComponents,
           Widget.componentSection "Components (Sparse)"
             ref1.archetype.sparseSetComponents] ∈ r.surfaces ∧
      ∀ c ∈ ref1.archetype.components,
        (c ∈ ref1.archetype.tableComponents ∧
           c ∉ ref1.archetype.sparseSetComponents) ∨
        (c ∈ ref1.archetype.sparseSetComponents ∧
           c ∉ ref1.archetype.tableComponents) :=
  C2_component_partition filtTrue wLive input0 pOn eg0 5 ref1 rfl rfl rfl rfl
    (by decide) rfl rfl rfl
    (by
      intro c hc
      simp [ref1, arch1, Archetype.wf] at hc
      rcases hc with ⟨h1 | h1, h2⟩ <;> subst h1 <;> exact absurd h2 (by decide))

/-- C4: for a live selected entity in panel mode, the changed signal
surfaced for the frame is exactly the logical OR of the changed results of
the table-storage render and the sparse-set-storage render, and any widget
edit touching a component of the entity makes it true. -/
theorem C4_changed_signal (filt : EntityId → Bool) (w : World)
    (input : FrameInput) (p : WorldInspectorParams) (egui : EguiContext)
    (e : EntityId) (entityRef : EntityRef)
    (hp : w.params = some p) (hen : p.enabled = true)
    (hpanel : p.panel = true) (heg : w.egui = some egui)
    (hctx : p.window ∈ egui.windows) (hsel : p.entity = some e)
    (hclick : input.click = none) (href : w.get_entity e = some entityRef) :
    ∃ r, world_inspector_ui filt w input = Except.ok r ∧
      r.changed = some
        ((component_kind_ui w.data entityRef.archetype.tableComponents
            "Components" e input.edits).snd.snd ||
         (component_kind_ui
            (component_kind_ui w.data entityRef.archetype.tableComponents
               "Components" e input.edits).fst
            entityRef.archetype.sparseSetComponents "Components (Sparse)"
            e input.edits).snd.snd) ∧
      ((∃ cv ∈ input.edits, cv.fst ∈ entityRef.archetype.components) →
        r.changed = some true) := by
  have hch : (tickMain filt w input p).changed =
      some ((input.edits.any fun cv =>
              cv.fst ∈ entityRef.archetype.tableComponents) ||
            (input.edits.any fun cv =>
              cv.fst ∈ entityRef.archetype.sparseSetComponents)) := by
    simp [tickMain, drawHierarchySurface_snd w filt p input hclick, hsel,
          drawInspectorPanel_live w p e entityRef input.edits hpanel href]
  refine ⟨_, tick_eq_main filt w input p egui hp hen heg hctx, ?_, ?_⟩
  · rw [hch]; simp [component_kind_ui]
  · rintro ⟨cv, hcv, hc⟩
    rw [hch]
    rcases List.mem_append.mp (by simpa [Archetype.components] using hc)
      with h1 | h2
    · simp only [Option.some.injEq, Bool.or_eq_true, List.any_eq_true]
      exact Or.inl ⟨cv, hcv, by simpa using h1⟩
    · simp only [Option.some.injEq, Bool.or_eq_true, List.any_eq_true]
      exact Or.inr ⟨cv, hcv, by simpa using h2⟩

/-- Witness for C4 at the concrete world `wLive` with an edit of table
component 10. -/
theorem C4_changed_signal_witness :
    ∃ r, world_inspector_ui filtTrue wLive inputEdit = Except.ok r ∧
      r.changed = some
        ((component_kind_ui wLive.data ref1.archetype.tableComponents
            "Components" 5 inputEdit.edits).snd.snd ||
         (component_kind_ui
            (component_kind_ui wLive.data ref1.archetype.tableComponents
               "Components" 5 inputEdit.edits).fst
            ref1.archetype.sparseSetComponents "Components (Sparse)"
            5 inputEdit.edits).snd.snd) ∧
      ((∃ cv ∈ inputEdit.edits, cv.fst ∈ ref1.archetype.components) →
        r.changed = some true) :=
  C4_changed_signal filtTrue wLive inputEdit pOn eg0 5 ref1 rfl rfl rfl rfl
    (by decide) rfl rfl rfl

/-- C6: in every tick the configuration resource is read first; when the
tick completes its drawing phase, the single write of the configuration is
the last observable step, after every drawn surface, and in the early-return
frames no write occurs at all. -/
theorem C6_config_write_at_end (filt : EntityId → Bool) (w : World)
    (input : FrameInput) (r : TickResult)
    (h : world_inspector_ui filt w input = Except.ok r) :
    r.trace = [TickEvent.readParams] ∨
    ∃ ds, (∀ ev ∈ ds, ∃ s, ev = TickEvent.draw s) ∧
      r.trace = TickEvent.readParams :: (ds ++ [TickEvent.writeParams]) := by
  rcases hp : w.params with _ | p
  · simp [world_inspector_ui, hp] at h
  · by_cases hen : p.enabled
    · rcases heg : w.egui with _ | eg
      · simp [world_inspector_ui, hp, hen, heg] at h
      · rcases hctx : eg.try_ctx_for_window p.window with _ | u
        · simp [world_inspector_ui, hp, hen, heg, hctx] at h
          exact Or.inl (by rw [← h])
        · simp [world_inspector_ui, hp, hen, heg, hctx] at h
          subst h
          right
          cases hins : (drawInspectorPanel w p
              (drawHierarchySurface w filt p input).snd input.edits).fst with
          | none =>
            refine ⟨[TickEvent.draw (drawHierarchySurface w filt p input).fst.fst],
                    ?_, ?_⟩
            · intro ev hev
              simp at hev
              exact ⟨_, hev⟩
            · simp [tickMain, hins]
          | some sb =>
            refine ⟨[TickEvent.draw (drawHierarchySurface w filt p input).fst.fst,
                     TickEvent.draw sb.fst], ?_, ?_⟩
            · intro ev hev
              simp at hev
              rcases hev with rfl | rfl
              · exact ⟨_, rfl⟩
              · exact ⟨_, rfl⟩
            · simp [tickMain, hins]
    · simp [world_inspector_ui, hp, hen] at h
      exact Or.inl (by rw [← h])

/-- Witness for C6 at the concrete disabled world `wOff`. -/
theorem C6_config_write_at_end_witness :
    (⟨wOff, [TickEvent.readParams], none⟩ : TickResult).trace =
        [TickEvent.readParams] ∨
    ∃ ds, (∀ ev ∈ ds, ∃ s, ev = TickEvent.draw s) ∧
      (⟨wOff, [TickEvent.readParams], none⟩ : TickResult).trace =
        TickEvent.readParams :: (ds ++ [TickEvent.writeParams]) :=
  C6_config_write_at_end filtTrue wOff input0
    ⟨wOff, [TickEvent.readParams], none⟩ rfl

/-- C8: the `panel` flag selects the UI surface — true draws the left-docked
side panel "World" and no floating window, false draws the floating
closable scrollable window "World" and no side panel. -/
theorem C8_display_mode (filt : EntityId → Bool) (w : World)
    (input : FrameInput) (p : WorldInspectorParams) (egui : EguiContext)
    (hp : w.params = some p) (hen : p.enabled = true)
    (heg : w.egui = some egui) (hctx : p.window ∈ egui.windows) :
    ∃ r, world_inspector_ui filt w input = Except.ok r ∧
      (p.panel = true →
        Surface.leftPanel "World"
          [Widget.heading "Hierarchy", Widget.separator,
           Widget.hierarchy (listEntities w filt)] ∈ r.surfaces ∧
        ∀ t c s ws, Surface.window t c s ws ∉ r.surfaces) ∧
      (p.panel = false →
        Surface.window "World" true true
          [Widget.hierarchy (listEntities w filt)] ∈ r.surfaces ∧
        ∀ t ws, Surface.leftPanel t ws ∉ r.surfaces) := by
  refine ⟨_, tick_eq_main filt w input p egui hp hen heg hctx, ?_, ?_⟩
  · intro hpanel
    constructor
    · rw [tickMain_surfaces, drawHierarchySurface_panel w filt p input hpanel]
      simp
    · intro t c s ws
      rw [tickMain_surfaces, drawHierarchySurface_panel w filt p input hpanel]
      rcases drawInspectorPanel_shape w p
          (drawHierarchySurface w filt p input).snd input.edits
        with hsh | ⟨ws2, b, hsh⟩ <;> simp [hsh]
  · intro hpanel
    have hins : (drawInspectorPanel w p
        (drawHierarchySurface w filt p input).snd input.edits).fst = none := by
      simp [drawInspectorPanel, hpanel]
    constructor
    · rw [tickMain_surfaces, drawHierarchySurface_window w filt p input hpanel,
          hins]
      simp
    · intro t ws
      rw [tickMain_surfaces, drawHierarchySurface_window w filt p input hpanel,
          hins]
      simp

/-- Witness for C8 at the concrete floating-window world `wWin`. -/
theorem C8_display_mode_witness :
    ∃ r, world_inspector_ui filtTrue wWin input0 = Except.ok r ∧
      (pWin.panel = true →
        Surface.leftPanel "World"
          [Widget.heading "Hierarchy", Widget.separator,
           Widget.hierarchy (listEntities wWin filtTrue)] ∈ r.surfaces ∧
        ∀ t c s ws, Surface.window t c s ws ∉ r.surfaces) ∧
      (pWin.panel = false →
        Surface.window "World" true true
          [Widget.hierarchy (listEntities wWin filtTrue)] ∈ r.surfaces ∧
        ∀ t ws, Surface.leftPanel t ws ∉ r.surfaces) :=
  C8_display_mode filtTrue wWin input0 pWin eg0 rfl rfl rfl (by decide)

/-- C10: the enabled flag written back at the end of a completed tick is
`panel || !closeClicked` — closing the floating window disables the
inspector for subsequent ticks, while in docked-panel mode a completed tick
always leaves the flag true. -/
theorem C10_close_disables (filt : EntityId → Bool) (w : World)
    (input : FrameInput) (p : WorldInspectorParams) (egui : EguiContext)
    (hp : w.params = some p) (hen : p.enabled = true)
    (heg : w.egui = some egui) (hctx : p.window ∈ egui.windows) :
    ∃ r, world_inspector_ui filt w input = Except.ok r ∧
      ∃ p2, r.world.params = some p2 ∧
        p2.enabled = (p.panel || !input.closeClicked) := by
  refine ⟨_, tick_eq_main filt w input p egui hp hen heg hctx, ?_⟩
  refine ⟨_, rfl, ?_⟩
  by_cases hpanel : p.panel
  · simp [tickMain, drawHierarchySurface, hpanel]
  · simp [tickMain, drawHierarchySurface, hpanel]

/-- Witness for C10 at the concrete floating-window world `wWin` with the
close button clicked. -/
theorem C10_close_disables_witness :
    ∃ r, world_inspector_ui filtTrue wWin inputClose = Except.ok r ∧
      ∃ p2, r.world.params = some p2 ∧
        p2.enabled = (pWin.panel || !inputClose.closeClicked) :=
  C10_close_disables filtTrue wWin inputClose pWin eg0 rfl rfl rfl (by decide)

end WorldInspector
